import Mathlib

/-!
Verification development for the Airmiles Marketplace order-lifecycle engine.

The definitions below are a shallow embedding of the TypeScript sources:
  - `src/db/queries.ts`      (order table writers / readers)
  - `src/services/escrowListener.ts` (deposit-event reconciliation)
  - `src/services/transferService.ts`
  - `src/routes/{sell,callback,callback-transfer,buyer,listings}.ts`
  - `src/proof/{MockProvider,ReclaimProvider}.ts`

Modelling conventions:
  - JavaScript numbers (SQLite REAL) are modelled as exact rationals `ℚ`;
    the literal float `0.01` is modelled as `1/100`.
  - SQLite rows are Lean structures; the orders table is a `List Order`;
    an `UPDATE ... WHERE id = ?` is a `List.map` touching rows whose id
    matches, with the SQL `AND status = ?` guard inside the row function.
  - `ORDER BY price_per_mile ASC` is a stable merge sort on the price key.
  - Cryptographic primitives (keccak256, HMAC-SHA256) are modelled as
    injective encodings of their inputs, reflecting collision resistance;
    no claim here depends on any other property of the real hash.
  - Fallible JS code is `Option`; a caught exception is `none`.
-/

namespace Marketplace

/-- Order statuses, from `OrderStatus` in `src/types/order.ts`. -/
inductive OrderStatus where
  | PENDING | VERIFIED | FAILED | LISTED | ESCROWED
  | TRANSFERRING | TRANSFERRED | COMPLETED | DISPUTED | REFUNDED
  deriving DecidableEq, Repr

open OrderStatus

/-- An order row, from the `Order` interface in `src/types/order.ts`
(equivalently the `orders` table of `src/db/schema.ts`). -/
structure Order where
  id : String
  item_type : String
  provider_id : String
  username : String
  amount : ℚ
  price : Option ℚ
  price_per_mile : Option ℚ
  min_miles : Option ℚ
  buyer_address : Option String
  buyer_departure : Option String
  buyer_destination : Option String
  escrow_tx : Option String
  encrypted_creds : Option String
  confirmation_code : Option String
  ticket_details : Option String
  status : OrderStatus
  proof_id : Option String
  error_msg : Option String
  created_at : String
  updated_at : String
  deriving DecidableEq, Repr

/-- The orders table. -/
abbrev Db := List Order

/-- Modelled from the spec (§4.1): the defined transition-edge set
`PENDING→VERIFIED|FAILED, VERIFIED→LISTED, LISTED→ESCROWED,
ESCROWED→TRANSFERRING, TRANSFERRING→TRANSFERRED,
TRANSFERRED→COMPLETED|DISPUTED, DISPUTED→COMPLETED|REFUNDED`.
This is the spec-side definition the code's writers are compared against. -/
def allowedEdge : OrderStatus → OrderStatus → Bool
  | PENDING, VERIFIED => true
  | PENDING, FAILED => true
  | VERIFIED, LISTED => true
  | LISTED, ESCROWED => true
  | ESCROWED, TRANSFERRING => true
  | TRANSFERRING, TRANSFERRED => true
  | TRANSFERRED, COMPLETED => true
  | TRANSFERRED, DISPUTED => true
  | DISPUTED, COMPLETED => true
  | DISPUTED, REFUNDED => true
  | _, _ => false

/-- Optional field updates accepted by `updateOrderStatus` in
`src/db/queries.ts`. -/
structure StatusUpdates where
  proof_id : Option String := none
  amount : Option ℚ := none
  error_msg : Option String := none
  deriving DecidableEq, Repr

/-- Row effect of `updateOrderStatus` (`src/db/queries.ts`):
`UPDATE orders SET status = ?, proof_id = COALESCE(?, proof_id),
amount = COALESCE(?, amount), error_msg = COALESCE(?, error_msg),
updated_at = ? WHERE id = ?`. Note: the WHERE clause has no status
condition — the status write is unconditional on the matched row. -/
def updateOrderStatusRow (status : OrderStatus) (updates : StatusUpdates)
    (now : String) (o : Order) : Order :=
  { o with
    status := status
    proof_id := updates.proof_id.orElse (fun _ => o.proof_id)
    amount := updates.amount.getD o.amount
    error_msg := updates.error_msg.orElse (fun _ => o.error_msg)
    updated_at := now }

/-- Row effect of `listOrder` (`src/db/queries.ts`):
`UPDATE orders SET status = 'LISTED', price_per_mile = ?, min_miles = ?,
updated_at = ? WHERE id = ? AND status = 'VERIFIED'`. -/
def listOrderRow (pricePerMile minMiles : ℚ) (now : String) (o : Order) : Order :=
  if o.status = VERIFIED then
    { o with status := LISTED, price_per_mile := some pricePerMile,
             min_miles := some minMiles, updated_at := now }
  else o

/-- Row effect of `escrowOrder` (`src/db/queries.ts`):
`UPDATE orders SET status = 'ESCROWED', buyer_address = ?,
buyer_departure = ?, buyer_destination = ?, escrow_tx = ?, updated_at = ?
WHERE id = ? AND status = 'LISTED'`. -/
def escrowOrderRow (buyerAddress departure destination escrowTx now : String)
    (o : Order) : Order :=
  if o.status = LISTED then
    { o with status := ESCROWED, buyer_address := some buyerAddress,
             buyer_departure := some departure,
             buyer_destination := some destination,
             escrow_tx := some escrowTx, updated_at := now }
  else o

/-- Row effect of `transferOrder` (`src/db/queries.ts`):
`UPDATE orders SET status = 'TRANSFERRING', updated_at = ?
WHERE id = ? AND status = 'ESCROWED'`. -/
def transferOrderRow (now : String) (o : Order) : Order :=
  if o.status = ESCROWED then
    { o with status := TRANSFERRING, updated_at := now }
  else o

/-- Row effect of `completeTransfer` (`src/db/queries.ts`):
`UPDATE orders SET status = 'TRANSFERRED', confirmation_code = ?,
ticket_details = ?, updated_at = ? WHERE id = ? AND status = 'TRANSFERRING'`. -/
def completeTransferRow (confirmationCode ticketDetails now : String)
    (o : Order) : Order :=
  if o.status = TRANSFERRING then
    { o with status := TRANSFERRED, confirmation_code := some confirmationCode,
             ticket_details := some ticketDetails, updated_at := now }
  else o

/-- Row effect of `approveOrder` (`src/db/queries.ts`):
`UPDATE orders SET status = 'COMPLETED', updated_at = ?
WHERE id = ? AND status = 'TRANSFERRED'`. -/
def approveOrderRow (now : String) (o : Order) : Order :=
  if o.status = TRANSFERRED then
    { o with status := COMPLETED, updated_at := now }
  else o

/-- Row effect of `disputeOrder` (`src/db/queries.ts`):
`UPDATE orders SET status = 'DISPUTED', updated_at = ?
WHERE id = ? AND status = 'TRANSFERRED'`. -/
def disputeOrderRow (now : String) (o : Order) : Order :=
  if o.status = TRANSFERRED then
    { o with status := DISPUTED, updated_at := now }
  else o

/-- Apply a row function to the rows matched by `WHERE id = ?`. -/
def updateById (db : Db) (id : String) (f : Order → Order) : Db :=
  db.map (fun o => if o.id = id then f o else o)

/-- `getOrderById` (`src/db/queries.ts`):
`SELECT * FROM orders WHERE id = ?` (first match). -/
def getOrderById (db : Db) (id : String) : Option Order :=
  db.find? (fun o => o.id = id)

/-- Sort key for `ORDER BY price_per_mile ASC` (SQLite sorts NULL first;
LISTED rows always have the price set, written by `listOrder`). -/
def ppmKey (o : Order) : ℚ := o.price_per_mile.getD 0

/-- `getListings` with no filters, as called by the escrow listener
(`src/db/queries.ts`): `SELECT * FROM orders WHERE status = 'LISTED'
ORDER BY price_per_mile ASC`. -/
def getListings (db : Db) : List Order :=
  (db.filter (fun o => o.status = LISTED)).mergeSort
    (fun a b => ppmKey a ≤ ppmKey b)

/-- `getActiveOrder` (`src/db/queries.ts`):
`SELECT * FROM orders WHERE provider_id = ? AND username = ?
AND status IN ('PENDING', 'VERIFIED') ... LIMIT 1`. -/
def getActiveOrder (db : Db) (providerId username : String) : Option Order :=
  db.find? (fun o =>
    o.provider_id = providerId ∧ o.username = username ∧
    (o.status = PENDING ∨ o.status = VERIFIED))

/-! ### Escrow event reconciliation (`src/services/escrowListener.ts`) -/

/-- Model of `web3.utils.keccak256` on strings: an injective encoding of
the input, reflecting only collision resistance of the real hash. -/
def keccak256 (s : String) : String :=
  "keccak256:" ++ s

/-- A decoded `Deposited` ledger event, from the `Deposited` event of
`AirmilesEscrow.sol` as decoded in `handleDepositedEvent`. `orderIdHash`
is the indexed (hence hashed) order id; `depositedUSDC` is
`parseFloat(web3.utils.fromWei(amount, 'mwei'))`, i.e. the deposit in
USDC units. -/
structure DepositEvent where
  orderIdHash : String
  buyer : String
  seller : String
  depositedUSDC : ℚ
  departure : String
  destination : String
  txHash : String
  deriving DecidableEq, Repr

/-- Primary matcher of `handleDepositedEvent`:
`listings.find(o => web3.utils.keccak256(o.id) === orderIdHash)`. -/
def primaryMatch (listings : List Order) (orderIdHash : String) : Option Order :=
  listings.find? (fun o => keccak256 o.id = orderIdHash)

/-- Fallback tolerance test of `handleDepositedEvent`:
`Math.abs((o.price_per_mile || 0) * o.amount - depositedUSDC) < 0.01`. -/
def withinTolerance (depositedUSDC : ℚ) (o : Order) : Bool :=
  |o.price_per_mile.getD 0 * o.amount - depositedUSDC| < 1 / 100

/-- Fallback matcher of `handleDepositedEvent`:
`listings.find(o => Math.abs(expectedCost - depositedUSDC) < 0.01)`
where `expectedCost = (o.price_per_mile || 0) * o.amount`. -/
def fallbackMatch (listings : List Order) (depositedUSDC : ℚ) : Option Order :=
  listings.find? (withinTolerance depositedUSDC)

/-- The matched order of `handleDepositedEvent`: the primary hash match,
else the fallback cost match over the same LISTED listings. -/
def matchDeposit (db : Db) (ev : DepositEvent) : Option Order :=
  match primaryMatch (getListings db) ev.orderIdHash with
  | some o => some o
  | none => fallbackMatch (getListings db) ev.depositedUSDC

/-- Database effect of `handleDepositedEvent`
(`src/services/escrowListener.ts`): find a matching LISTED order and run
`escrowOrder(matchingOrder.id, buyer, departure, destination, txHash)`;
with no match the event is dropped. The subsequent `triggerTransfer`
hand-off is modelled separately (`triggerTransferDb`). -/
def handleDepositedEvent (ev : DepositEvent) (now : String) (db : Db) : Db :=
  match matchDeposit db ev with
  | none => db
  | some m =>
      updateById db m.id
        (escrowOrderRow ev.buyer ev.departure ev.destination ev.txHash now)

/-- Database effect of `triggerTransfer`
(`src/services/transferService.ts`): requires the order to exist with
status ESCROWED, then runs `transferOrder` (CAS to TRANSFERRING); the
dispatch to the execution agent has no further database effect. -/
def triggerTransferDb (orderId now : String) (db : Db) : Db :=
  match getOrderById db orderId with
  | none => db
  | some o =>
      if o.status = ESCROWED then updateById db orderId (transferOrderRow now)
      else db

/-! ### Transfer callback (`src/routes/callback-transfer.ts`) -/

/-- Body of `POST /callback/transfer`. `ticketDetails` is modelled as the
already-JSON-encoded string the handler stores; the handler's JS
truthiness checks on the three required fields are nonemptiness checks. -/
structure TransferCallbackBody where
  orderId : String
  confirmationCode : String
  ticketDetails : String
  deriving DecidableEq, Repr

/-- Responses of the `POST /callback/transfer` handler. -/
inductive TransferCallbackResp where
  | invalidInput
  | orderNotFound
  | invalidStatus (current : OrderStatus)
  | ok
  deriving DecidableEq, Repr

/-- The `POST /callback/transfer` handler
(`src/routes/callback-transfer.ts`): validates the body, requires the
order to exist with status TRANSFERRING, then runs
`completeTransfer(orderId, confirmationCode, JSON.stringify(ticketDetails))`. -/
def transferCallback (body : TransferCallbackBody) (now : String) (db : Db) :
    TransferCallbackResp × Db :=
  if body.orderId = "" ∨ body.confirmationCode = "" ∨ body.ticketDetails = "" then
    (.invalidInput, db)
  else
    match getOrderById db body.orderId with
    | none => (.orderNotFound, db)
    | some o =>
        if o.status = TRANSFERRING then
          (.ok, updateById db body.orderId
            (completeTransferRow body.confirmationCode body.ticketDetails now))
        else (.invalidStatus o.status, db)

/-! ### Buyer approve (`src/routes/buyer.ts`) -/

/-- Responses of the `POST /buyer/orders/:id/approve` handler. -/
inductive ApproveResp where
  | orderNotFound
  | invalidStatus (current : OrderStatus)
  | ok
  deriving DecidableEq, Repr

/-- The `POST /buyer/orders/:id/approve` handler (`src/routes/buyer.ts`).
`releaseConfigured` models `config.escrowContract && config.adminPrivateKey`;
`releaseSucceeds` models whether the on-chain `release(id)` call throws.
The handler wraps the call in try/catch ("Still mark as completed — admin
can manually release"), so neither flag affects the database write:
`approveOrder(id)` runs whenever the status precondition held. -/
def approveHandler (releaseConfigured releaseSucceeds : Bool)
    (id now : String) (db : Db) : ApproveResp × Db :=
  match getOrderById db id with
  | none => (.orderNotFound, db)
  | some o =>
      if o.status = TRANSFERRED then
        -- on-chain release attempt: logged only, no DB effect either way
        let _onChain := releaseConfigured && releaseSucceeds
        (.ok, updateById db id (approveOrderRow now))
      else (.invalidStatus o.status, db)

/-! ### Credential encoding (`src/routes/sell.ts`, mock TEE `agent.ts`)

The sell route "encrypts" credentials with
`Buffer.from(JSON.stringify({ username, password })).toString('base64')`.
Bytes are modelled as `List Nat`; for the ASCII text involved, UTF-8
bytes coincide with code points. -/

/-- The standard base64 alphabet. -/
def base64Alphabet : List Char :=
  "ABCDEFGHIJKLMNOPQRSTUVWXYZabcdefghijklmnopqrstuvwxyz0123456789+/".toList

/-- Character for a 6-bit group. -/
def b64Char (n : Nat) : Char := base64Alphabet.getD n 'A'

/-- Value of a base64 character. -/
def b64Val (c : Char) : Option Nat := base64Alphabet.indexOf? c

/-- Standard base64 encoding of a byte list, with padding. -/
def base64EncodeBytes : List Nat → List Char
  | [] => []
  | [b1] => [b64Char (b1 / 4), b64Char (b1 % 4 * 16), '=', '=']
  | [b1, b2] =>
      [b64Char (b1 / 4), b64Char (b1 % 4 * 16 + b2 / 16), b64Char (b2 % 16 * 4), '=']
  | b1 :: b2 :: b3 :: rest =>
      b64Char (b1 / 4) :: b64Char (b1 % 4 * 16 + b2 / 16) ::
      b64Char (b2 % 16 * 4 + b3 / 64) :: b64Char (b3 % 64) :: base64EncodeBytes rest

/-- Base64 decoding (as `Buffer.from(s, 'base64')` on well-formed input). -/
def base64DecodeChars : List Char → Option (List Nat)
  | [] => some []
  | [c1, c2, '=', '='] => do
      let v1 ← b64Val c1
      let v2 ← b64Val c2
      pure [v1 * 4 + v2 / 16]
  | [c1, c2, c3, '='] => do
      let v1 ← b64Val c1
      let v2 ← b64Val c2
      let v3 ← b64Val c3
      pure [v1 * 4 + v2 / 16, v2 % 16 * 16 + v3 / 4]
  | c1 :: c2 :: c3 :: c4 :: rest => do
      let v1 ← b64Val c1
      let v2 ← b64Val c2
      let v3 ← b64Val c3
      let v4 ← b64Val c4
      let tail ← base64DecodeChars rest
      pure ((v1 * 4 + v2 / 16) :: (v2 % 16 * 16 + v3 / 4) :: (v3 % 4 * 64 + v4) :: tail)
  | _ => none

/-- Code points of a string (equals its UTF-8 bytes for ASCII text). -/
def asciiBytes (s : String) : List Nat := s.data.map Char.toNat

/-- String from byte values (inverse of `asciiBytes` on ASCII). -/
def asciiOfBytes (bs : List Nat) : String := String.mk (bs.map Char.ofNat)

/-- Base64 of an ASCII string, as `Buffer.from(s).toString('base64')`. -/
def base64Ascii (s : String) : String :=
  String.mk (base64EncodeBytes (asciiBytes s))

/-- Hex digit for `\u00XX` escapes. -/
def hexDigit (n : Nat) : Char := "0123456789abcdef".toList.getD n '0'

/-- `JSON.stringify` escaping of one character. -/
def jsonEscapeChar (c : Char) : List Char :=
  if c = '"' then ['\\', '"']
  else if c = '\\' then ['\\', '\\']
  else if c = '\x08' then ['\\', 'b']
  else if c = '\t' then ['\\', 't']
  else if c = '\n' then ['\\', 'n']
  else if c = '\x0c' then ['\\', 'f']
  else if c = '\x0d' then ['\\', 'r']
  else if c.toNat < 32 then
    ['\\', 'u', '0', '0', hexDigit (c.toNat / 16), hexDigit (c.toNat % 16)]
  else [c]

/-- `JSON.stringify` escaping of a string body. -/
def jsonEscape (s : String) : String := String.mk (s.data.flatMap jsonEscapeChar)

/-- `JSON.stringify({ username, password })`. -/
def credsJson (username password : String) : String :=
  "\x7b\"username\":\"" ++ jsonEscape username ++
  "\",\"password\":\"" ++ jsonEscape password ++ "\"\x7d"

/-- The sell route's credential "encryption" (`src/routes/sell.ts`):
`Buffer.from(JSON.stringify({ username, password })).toString('base64')`.
The route's comment marks this as a placeholder for public-key
encryption. -/
def encryptCreds (username password : String) : String :=
  base64Ascii (credsJson username password)

/-- Keyless recovery as performed by the mock TEE agent
(`POST /execute`): `Buffer.from(encrypted_creds, 'base64').toString()`.
No private key or secret of any kind is consumed. -/
def decodeWithoutKey (ciphertext : String) : Option String :=
  (base64DecodeChars ciphertext.data).map asciiOfBytes

/-! ### Seller intake (`src/routes/sell.ts`) -/

/-- Responses of the `POST /sell/airmiles` handler. -/
inductive SellResp where
  | invalidInput
  | providerNotFound
  | duplicateOrder (existingId : String)
  | created (orderId : String)
  deriving DecidableEq, Repr

/-- The `POST /sell/airmiles` handler (`src/routes/sell.ts`): validates
the body (JS truthiness on the three strings = nonemptiness), looks up
the provider, rejects with DUPLICATE_ORDER when `getActiveOrder` finds a
PENDING/VERIFIED order for the same provider+username, else creates a
PENDING order (`createOrder` INSERT) with the encoded credentials. -/
def sellHandler (providers : List String) (db : Db)
    (provider username password : String) (listingPrice : Option ℚ)
    (newId now : String) : SellResp × Db :=
  if provider = "" ∨ username = "" ∨ password = "" then (.invalidInput, db)
  else if providers.contains provider = false then (.providerNotFound, db)
  else
    match getActiveOrder db provider username with
    | some existing => (.duplicateOrder existing.id, db)
    | none =>
        let newOrder : Order :=
          { id := newId, item_type := "AIRMILES", provider_id := provider,
            username := username, amount := 0, price := listingPrice,
            price_per_mile := none, min_miles := none, buyer_address := none,
            buyer_departure := none, buyer_destination := none,
            escrow_tx := none,
            encrypted_creds := some (encryptCreds username password),
            confirmation_code := none, ticket_details := none,
            status := PENDING, proof_id := none, error_msg := none,
            created_at := now, updated_at := now }
        (.created newId, db ++ [newOrder])

/-! ### JavaScript value model

JSON-like runtime values for the untrusted proof payloads handled by
`src/routes/callback.ts`. JS `undefined` is collapsed to `null`: every
operation the source applies to the payload (truthiness, `!= null`,
guarded property access) treats the two identically. -/

/-- A JavaScript JSON-like value. -/
inductive JsonVal where
  | null
  | bool (b : Bool)
  | num (q : ℚ)
  | str (s : String)
  | arr (elems : List JsonVal)
  | obj (fields : List (String × JsonVal))

/-- Property access `v[k]`: missing keys and access on non-objects give
`null` (standing for JS `undefined`; every such access in the source is
either guarded or optional-chained). -/
def lookupField : JsonVal → String → JsonVal
  | .obj fields, k =>
      match fields.find? (fun kv => kv.1 = k) with
      | some kv => kv.2
      | none => .null
  | _, _ => .null

/-- JS truthiness (`NaN` cannot arise in this value model). -/
def truthy : JsonVal → Bool
  | .null => false
  | .bool b => b
  | .num q => q ≠ 0
  | .str s => s ≠ ""
  | .arr _ => true
  | .obj _ => true

/-- JS `a || b`. -/
def jsOr (a b : JsonVal) : JsonVal := if truthy a then a else b

/-- JS `v != null` (false exactly for `null`/`undefined`). -/
def notNullish : JsonVal → Bool
  | .null => false
  | _ => true

/-- JS `typeof v === 'object'` (true for objects, arrays and `null`). -/
def typeofObject : JsonVal → Bool
  | .obj _ => true
  | .arr _ => true
  | .null => true
  | _ => false

/-- Numeric value of a digit character. -/
def digitVal (c : Char) : Nat := c.toNat - '0'.toNat

/-- Natural number denoted by a digit list. -/
def natOfDigits (ds : List Char) : Nat :=
  ds.foldl (fun acc c => 10 * acc + digitVal c) 0

/-- `parseFloat` restricted to strings of digits and dots (the exact
domain produced by the cleaning step of `toNumber`): the longest valid
leading literal `digits [ . digits ]`; `none` models `NaN`. -/
def parseCleaned (cs : List Char) : Option ℚ :=
  let d1 := cs.takeWhile Char.isDigit
  let rest := cs.drop d1.length
  match rest with
  | '.' :: rest2 =>
      let d2 := rest2.takeWhile Char.isDigit
      if d1.isEmpty ∧ d2.isEmpty then none
      else some ((natOfDigits d1 : ℚ) + (natOfDigits d2 : ℚ) / 10 ^ d2.length)
  | _ => if d1.isEmpty then none else some (natOfDigits d1 : ℚ)

/-- `toNumber` (`src/routes/callback.ts`): numbers pass through; strings
are stripped of every char outside `[0-9.]` (`val.replace(/[^0-9.]/g,'')`)
and parsed with `parseFloat`, `NaN` yielding 0; all other values give 0. -/
def toNumber : JsonVal → ℚ
  | .num q => q
  | .str s =>
      let cleaned := s.data.filter (fun c => c.isDigit ∨ c = '.')
      match parseCleaned cleaned with
      | some q => q
      | none => 0
  | _ => 0

/-- `safeJsonParse` (`src/routes/callback.ts`): non-strings are returned
unchanged; strings go through `JSON.parse`, a parse error (`none` from
the supplied parser) giving `null`. The parser itself is a parameter;
every theorem below holds for an arbitrary parser. -/
def safeJsonParse (jparse : String → Option JsonVal) : JsonVal → JsonVal
  | .str s =>
      match jparse s with
      | some v => v
      | none => .null
  | v => v

/-- The five-alias chain of formats 2 and 3:
`params.AccountBalance || params.balance || params.miles || params.points
|| params.mileageBalance`. -/
def aliasChain5 (params : JsonVal) : JsonVal :=
  jsOr (lookupField params "AccountBalance")
    (jsOr (lookupField params "balance")
      (jsOr (lookupField params "miles")
        (jsOr (lookupField params "points")
          (lookupField params "mileageBalance"))))

/-- The three-alias chain of format 3b:
`paramValues.AccountBalance || paramValues.balance || paramValues.miles`. -/
def aliasChain3 (pv : JsonVal) : JsonVal :=
  jsOr (lookupField pv "AccountBalance")
    (jsOr (lookupField pv "balance") (lookupField pv "miles"))

/-- The four-alias chain of formats 6 and 7:
`params.balance || params.miles || params.points || params.mileageBalance`. -/
def aliasChain4 (params : JsonVal) : JsonVal :=
  jsOr (lookupField params "balance")
    (jsOr (lookupField params "miles")
      (jsOr (lookupField params "points") (lookupField params "mileageBalance")))

/-- Loop body of formats 4 and 5: recurse over the array, returning the
first strictly positive extracted balance, else fall through. -/
def firstPositive (f : JsonVal → ℚ) : List JsonVal → Option ℚ
  | [] => none
  | x :: xs =>
      let b := f x
      if 0 < b then some b else firstPositive f xs

/-- `extractBalanceFromProof` (`src/routes/callback.ts`), fuelled: the
fuel only bounds the recursion depth of formats 4/5 (JS recursion is
unbounded; `extractBalanceFromProof` below supplies fuel exceeding the
value's depth). Each format block mirrors the source: it is entered under
the source's guard and returns only when its candidate is `!= null`
(resp. `> 0` for the array formats), otherwise control falls through to
the next block. -/
def extractGo (jparse : String → Option JsonVal) : Nat → JsonVal → ℚ
  | 0, _ => 0
  | fuel + 1, p =>
    -- `if (!proofData) return 0`
    if ¬ truthy p then 0
    else
      -- Format 1: direct balance field
      let fmt1 : Option ℚ :=
        let v := lookupField p "balance"
        if notNullish v then some (toNumber v) else none
      -- Format 2: top-level extractedParameters
      let fmt2 : Option ℚ :=
        let params := lookupField p "extractedParameters"
        if truthy params then
          let val := aliasChain5 params
          if notNullish val then some (toNumber val) else none
        else none
      -- Format 3: claimData.context (JSON-encoded)
      let fmt3 : Option ℚ :=
        let ctxRaw := lookupField (lookupField p "claimData") "context"
        if truthy ctxRaw then
          let ctx := safeJsonParse jparse ctxRaw
          let params := lookupField ctx "extractedParameters"
          if truthy params then
            let val := aliasChain5 params
            if notNullish val then some (toNumber val) else none
          else none
        else none
      -- Format 3b: claimData.parameters.paramValues
      let fmt3b : Option ℚ :=
        let paramsRaw := lookupField (lookupField p "claimData") "parameters"
        if truthy paramsRaw then
          let params := safeJsonParse jparse paramsRaw
          let pv := lookupField params "paramValues"
          if truthy pv then
            let val := aliasChain3 pv
            if notNullish val then some (toNumber val) else none
          else none
        else none
      -- Format 4: array of proofs
      let fmt4 : Option ℚ :=
        match p with
        | .arr elems => firstPositive (extractGo jparse fuel) elems
        | _ => none
      -- Format 5: nested proofs array
      let fmt5 : Option ℚ :=
        match lookupField p "proofs" with
        | .arr elems => firstPositive (extractGo jparse fuel) elems
        | _ => none
      -- Format 6: parameters (alternative key)
      let fmt6 : Option ℚ :=
        let paramsRaw := lookupField p "parameters"
        if truthy paramsRaw then
          let params := jsOr (safeJsonParse jparse paramsRaw) paramsRaw
          if typeofObject params then
            let val := aliasChain4 params
            if notNullish val then some (toNumber val) else none
          else none
        else none
      -- Format 7: context at top level
      let fmt7 : Option ℚ :=
        let ctxRaw := lookupField p "context"
        if truthy ctxRaw then
          let ctx := jsOr (safeJsonParse jparse ctxRaw) ctxRaw
          if typeofObject ctx ∧ truthy (lookupField ctx "extractedParameters") then
            let val := aliasChain4 (lookupField ctx "extractedParameters")
            if notNullish val then some (toNumber val) else none
          else none
        else none
      ((((((fmt1 <|> fmt2) <|> fmt3) <|> fmt3b) <|> fmt4) <|> fmt5) <|> fmt6
        <|> fmt7).getD 0

mutual

/-- Structural size of a value (strictly exceeds its nesting depth). -/
def jsonSize : JsonVal → Nat
  | .null => 1
  | .bool _ => 1
  | .num _ => 1
  | .str _ => 1
  | .arr elems => 1 + jsonSizeList elems
  | .obj fields => 1 + jsonSizeFields fields

/-- Total size of a value list. -/
def jsonSizeList : List JsonVal → Nat
  | [] => 0
  | x :: xs => jsonSize x + jsonSizeList xs

/-- Total size of an object's field list. -/
def jsonSizeFields : List (String × JsonVal) → Nat
  | [] => 0
  | kv :: xs => jsonSize kv.2 + jsonSizeFields xs

end

/-- `extractBalanceFromProof` (`src/routes/callback.ts`): total function
from payloads to numbers; the fuel `jsonSize p` strictly exceeds the
nesting depth of `p`, so the fuelled recursion never runs dry. -/
def extractBalanceFromProof (jparse : String → Option JsonVal)
    (p : JsonVal) : ℚ :=
  extractGo jparse (jsonSize p) p

/-! ### Proof providers (`src/proof/MockProvider.ts`,
`src/proof/ReclaimProvider.ts`) -/

mutual

/-- Canonical JSON rendering of a value (models `JSON.stringify`; number
rendering is the canonical rational one — no claim depends on it). -/
def renderJson : JsonVal → String
  | .null => "null"
  | .bool b => if b then "true" else "false"
  | .num q => toString q
  | .str s => "\"" ++ jsonEscape s ++ "\""
  | .arr l => "[" ++ renderJsonList l ++ "]"
  | .obj fs => "\x7b" ++ renderJsonFields fs ++ "\x7d"

/-- Comma-separated rendering of array elements. -/
def renderJsonList : List JsonVal → String
  | [] => ""
  | [x] => renderJson x
  | x :: xs => renderJson x ++ "," ++ renderJsonList xs

/-- Comma-separated rendering of object fields. -/
def renderJsonFields : List (String × JsonVal) → String
  | [] => ""
  | [kv] => "\"" ++ jsonEscape kv.1 ++ "\":" ++ renderJson kv.2
  | kv :: xs =>
      "\"" ++ jsonEscape kv.1 ++ "\":" ++ renderJson kv.2 ++ "," ++
      renderJsonFields xs

end

/-- Model of `crypto.createHmac('sha256', key).update(msg).digest('hex')`:
an injective encoding of the (key, message) pair (the length prefix makes
the key recoverable), reflecting collision resistance of HMAC-SHA256 —
distinct key/message pairs give distinct tags. No claim depends on any
other property of the real MAC. -/
def hmacSha256 (key msg : String) : String :=
  toString key.length ++ ":" ++ key ++ msg

/-- Predicate operators of `ProofGenerateParams` (`src/types/proof.ts`). -/
inductive PredicateOp where
  | ge | eq | gt
  deriving DecidableEq, Repr

/-- Rendering of a predicate operator. -/
def opStr : PredicateOp → String
  | .ge => ">="
  | .eq => "=="
  | .gt => ">"

/-- `ProofGenerateParams` (`src/types/proof.ts`). -/
structure ProofGenerateParams where
  domain : String
  responseData : JsonVal
  predicateField : String
  predicateValue : ℚ
  predicateOp : PredicateOp

/-- `Attestations` (`src/types/proof.ts`). -/
structure Attestations where
  airline_authenticity : Bool
  tls_session_integrity : Bool
  domain_ownership : Bool
  predicate_satisfied : Bool
  deriving DecidableEq, Repr

/-- `ProofResult` (`src/types/proof.ts`). -/
structure ProofResult where
  id : String
  provider_domain : String
  proof_type : String
  attestations : Attestations
  predicate_expr : String
  raw_proof : String
  signature : String
  created_at : String

/-- `typeof responseData === 'object' ? responseData[predicateField]
: responseData` — shared by both providers' `generateProof`. -/
def actualValueOf (responseData : JsonVal) (field : String) : JsonVal :=
  if typeofObject responseData then lookupField responseData field
  else responseData

/-- Predicate evaluation shared by both providers: non-numeric actual
values never satisfy the predicate. -/
def evalPredicate (actual : JsonVal) (value : ℚ) : PredicateOp → Bool
  | .ge =>
      match actual with
      | .num n => value ≤ n
      | _ => false
  | .eq =>
      match actual with
      | .num n => n = value
      | _ => false
  | .gt =>
      match actual with
      | .num n => value < n
      | _ => false

/-- The attestations both providers fabricate: three fixed `true` flags
plus the evaluated predicate. -/
def mkAttestations (params : ProofGenerateParams) : Attestations :=
  { airline_authenticity := true, tls_session_integrity := true,
    domain_ownership := true,
    predicate_satisfied :=
      evalPredicate (actualValueOf params.responseData params.predicateField)
        params.predicateValue params.predicateOp }

/-- `${predicateField} ${predicateOp} ${predicateValue}`. -/
def predicateExprOf (params : ProofGenerateParams) : String :=
  params.predicateField ++ " " ++ opStr params.predicateOp ++ " " ++
    toString params.predicateValue

/-- The mock attestor HMAC key (`src/proof/MockProvider.ts`). -/
def mockAttestorKey : String := "mock-attestor-key"

/-- The mock proof payload (`proofPayload` in
`MockProvider.generateProof`), JSON-encoded. -/
def mockPayloadJson (params : ProofGenerateParams) (now nonce : String) :
    String :=
  "\x7b\"type\":\"mock_zktls_proof\",\"domain\":\"" ++
    jsonEscape params.domain ++
  "\",\"attestations\":" ++
    renderJson (JsonVal.obj
      [("airline_authenticity", .bool (mkAttestations params).airline_authenticity),
       ("tls_session_integrity", .bool (mkAttestations params).tls_session_integrity),
       ("domain_ownership", .bool (mkAttestations params).domain_ownership),
       ("predicate_satisfied", .bool (mkAttestations params).predicate_satisfied)]) ++
  ",\"predicate\":\"" ++ jsonEscape (predicateExprOf params) ++
  "\",\"actualValue\":" ++
    renderJson (actualValueOf params.responseData params.predicateField) ++
  ",\"timestamp\":\"" ++ jsonEscape now ++
  "\",\"nonce\":\"" ++ jsonEscape nonce ++ "\"\x7d"

/-- `MockProvider.generateProof` (`src/proof/MockProvider.ts`): evaluates
the predicate, base64-encodes the JSON payload as `raw_proof`, and signs
it with HMAC-SHA256 under the fixed mock attestor key. -/
def generateProofMock (params : ProofGenerateParams)
    (newId now nonce : String) : ProofResult :=
  let rawProof := base64Ascii (mockPayloadJson params now nonce)
  { id := newId, provider_domain := params.domain, proof_type := "mock",
    attestations := mkAttestations params,
    predicate_expr := predicateExprOf params,
    raw_proof := rawProof,
    signature := hmacSha256 mockAttestorKey rawProof,
    created_at := now }

/-- `MockProvider.verifyProof`: recomputes the HMAC over `raw_proof`
under the mock attestor key and compares. -/
def verifyProofMock (proof : ProofResult) : Bool :=
  proof.signature = hmacSha256 mockAttestorKey proof.raw_proof

/-- `ReclaimProvider.generateProof` (`src/proof/ReclaimProvider.ts`):
`raw_proof` is base64 of `JSON.stringify(responseData)`, signed with
HMAC-SHA256 under `config.reclaimAppSecret` — the raw secret, with no
fallback. -/
def generateProofReclaim (reclaimAppSecret : String)
    (params : ProofGenerateParams) (newId now : String) : ProofResult :=
  let rawProof := base64Ascii (renderJson params.responseData)
  { id := newId, provider_domain := params.domain, proof_type := "reclaim",
    attestations := mkAttestations params,
    predicate_expr := predicateExprOf params,
    raw_proof := rawProof,
    signature := hmacSha256 reclaimAppSecret rawProof,
    created_at := now }

/-- `ReclaimProvider.verifyProof`: recomputes the HMAC under
`config.reclaimAppSecret || 'local'` — falling back to the literal
`'local'` when the configured secret is the empty string. -/
def verifyProofReclaim (reclaimAppSecret : String) (proof : ProofResult) :
    Bool :=
  proof.signature =
    hmacSha256 (if reclaimAppSecret = "" then "local" else reclaimAppSecret)
      proof.raw_proof

/-! ### Derived definitions used by the statements below -/

/-- A writer `f` behaves as the guarded compare-and-swap for the edge
`src → tgt` on order `o`: from `src` it moves the status to `tgt` (an
edge of the defined set), and from any other status it leaves the row
exactly unchanged. -/
def casOk (f : Order → Order) (src tgt : OrderStatus) (o : Order) : Prop :=
  (o.status = src → (f o).status = tgt ∧ allowedEdge src tgt = true) ∧
  (o.status ≠ src → f o = o)

/-- Per-row effect of `handleDepositedEvent`: the escrow write restricted
to the matched order's id (the identity map when nothing matches). -/
def depositRowF (ev : DepositEvent) (now : String) (db : Db) (o : Order) :
    Order :=
  match matchDeposit db ev with
  | none => o
  | some m =>
      if o.id = m.id then
        escrowOrderRow ev.buyer ev.departure ev.destination ev.txHash now o
      else o

/-- The payload keys `extractBalanceFromProof` dispatches on. -/
def recognizedKeys : List String :=
  ["balance", "extractedParameters", "claimData", "parameters", "proofs",
   "context"]

/-- The buy quote of `POST /listings/:id/buy` (`src/routes/listings.ts`):
`const totalCost = miles_amount * (order.price_per_mile || 0)`. -/
def totalCostQuote (o : Order) (milesAmount : ℚ) : ℚ :=
  milesAmount * o.price_per_mile.getD 0

/-- Whether a sell response is the DUPLICATE_ORDER rejection. -/
def isDuplicate : SellResp → Bool
  | .duplicateOrder _ => true
  | _ => false

/-- A concrete LISTED order (5000 verified miles at 0.015 USDC/mile,
quoted full cost 75 USDC) used by the concrete statements below. -/
def sampleOrder : Order :=
  { id := "ord-1", item_type := "AIRMILES", provider_id := "united",
    username := "alice", amount := 5000, price := none,
    price_per_mile := some (3 / 200), min_miles := some 1000,
    buyer_address := none, buyer_departure := none,
    buyer_destination := none, escrow_tx := none, encrypted_creds := none,
    confirmation_code := none, ticket_details := none, status := LISTED,
    proof_id := none, error_msg := none, created_at := "t0",
    updated_at := "t0" }

/-- A concrete deposit event whose indexed order-id hash is that of
`sampleOrder` relabelled `"a"`, depositing the exact quoted cost. -/
def sampleEvent : DepositEvent :=
  { orderIdHash := keccak256 "a", buyer := "0xbuyer", seller := "0xseller",
    depositedUSDC := 75, departure := "LAX", destination := "NRT",
    txHash := "0xtx1" }

/-- `sampleOrder` relabelled `"a"`. -/
def orderA : Order := { sampleOrder with id := "a" }

/-- A second listing with the same price and amount (hence the same
75 USDC quoted cost), relabelled `"b"`. -/
def orderB : Order := { sampleOrder with id := "b" }

/-- A deposit event of 75 USDC whose order-id hash matches no listing. -/
def ambEvent : DepositEvent :=
  { sampleEvent with orderIdHash := "0xunknown", txHash := "0xtx2" }

/-- A concrete transfer-callback body. -/
def sampleBody : TransferCallbackBody :=
  { orderId := "ord-1", confirmationCode := "UAABC123",
    ticketDetails := "\x7b\"seat\":\"12A\"\x7d" }

/-- Concrete proof-generation parameters (the README's 8030-mile
balance). -/
def sampleParams : ProofGenerateParams :=
  { domain := "www.united.com",
    responseData := JsonVal.obj [("airmiles_balance", JsonVal.num 8030)],
    predicateField := "airmiles_balance", predicateValue := 8030,
    predicateOp := .ge }

/-! ### General lemmas -/

theorem escrowOrderRow_id (a d s t n : String) (o : Order) :
    (escrowOrderRow a d s t n o).id = o.id := by
  unfold escrowOrderRow; split <;> rfl

theorem completeTransferRow_id (c t n : String) (o : Order) :
    (completeTransferRow c t n o).id = o.id := by
  unfold completeTransferRow; split <;> rfl

theorem approveOrderRow_id (n : String) (o : Order) :
    (approveOrderRow n o).id = o.id := by
  unfold approveOrderRow; split <;> rfl

theorem getOrderById_updateById (db : Db) (oid : String) (f : Order → Order)
    (hf : ∀ o, (f o).id = o.id) :
    getOrderById (updateById db oid f) oid = (getOrderById db oid).map f := by
  induction db with
  | nil => rfl
  | cons a tl ih =>
      unfold getOrderById updateById at ih ⊢
      by_cases h : a.id = oid
      · simp [List.find?, h, hf a]
      · simp only [List.map_cons, List.find?]
        simp [h, ih]

/-! ### C8 — frame conditions of the two transition writers -/

/-- C8: the LISTED→ESCROWED writer (`escrowOrder`) writes only status,
buyer_address, buyer_departure, buyer_destination, escrow_tx and
updated_at, and the TRANSFERRING→TRANSFERRED writer (`completeTransfer`)
writes only status, confirmation_code, ticket_details and updated_at;
every other field of every order is unchanged by these operations. -/
theorem escrow_and_transfer_writers_frame :
    ∀ (a d s t cc td now : String) (o : Order),
      ((escrowOrderRow a d s t now o).id = o.id ∧
       (escrowOrderRow a d s t now o).item_type = o.item_type ∧
       (escrowOrderRow a d s t now o).provider_id = o.provider_id ∧
       (escrowOrderRow a d s t now o).username = o.username ∧
       (escrowOrderRow a d s t now o).amount = o.amount ∧
       (escrowOrderRow a d s t now o).price = o.price ∧
       (escrowOrderRow a d s t now o).price_per_mile = o.price_per_mile ∧
       (escrowOrderRow a d s t now o).min_miles = o.min_miles ∧
       (escrowOrderRow a d s t now o).encrypted_creds = o.encrypted_creds ∧
       (escrowOrderRow a d s t now o).confirmation_code
          = o.confirmation_code ∧
       (escrowOrderRow a d s t now o).ticket_details = o.ticket_details ∧
       (escrowOrderRow a d s t now o).proof_id = o.proof_id ∧
       (escrowOrderRow a d s t now o).error_msg = o.error_msg ∧
       (escrowOrderRow a d s t now o).created_at = o.created_at) ∧
      ((completeTransferRow cc td now o).id = o.id ∧
       (completeTransferRow cc td now o).item_type = o.item_type ∧
       (completeTransferRow cc td now o).provider_id = o.provider_id ∧
       (completeTransferRow cc td now o).username = o.username ∧
       (completeTransferRow cc td now o).amount = o.amount ∧
       (completeTransferRow cc td now o).price = o.price ∧
       (completeTransferRow cc td now o).price_per_mile = o.price_per_mile ∧
       (completeTransferRow cc td now o).min_miles = o.min_miles ∧
       (completeTransferRow cc td now o).buyer_address = o.buyer_address ∧
       (completeTransferRow cc td now o).buyer_departure
          = o.buyer_departure ∧
       (completeTransferRow cc td now o).buyer_destination
          = o.buyer_destination ∧
       (completeTransferRow cc td now o).escrow_tx = o.escrow_tx ∧
       (completeTransferRow cc td now o).encrypted_creds
          = o.encrypted_creds ∧
       (completeTransferRow cc td now o).proof_id = o.proof_id ∧
       (completeTransferRow cc td now o).error_msg = o.error_msg ∧
       (completeTransferRow cc td now o).created_at = o.created_at) := by
  intro a d s t cc td now o
  constructor
  · by_cases h : o.status = LISTED <;> simp [escrowOrderRow, h]
  · by_cases h : o.status = TRANSFERRING <;> simp [completeTransferRow, h]

/-! ### C5 — approve is best-effort about the on-chain release -/

/-- C5: the approve handler's result never depends on whether the
on-chain release call is configured or succeeds (the call is wrapped in
try/catch and only logged), and on a TRANSFERRED order it answers 200 and
advances the row to COMPLETED. -/
theorem approve_best_effort :
    (∀ (cfg ok : Bool) (oid now : String) (db : Db),
      approveHandler cfg ok oid now db = approveHandler cfg true oid now db)
    ∧ ∀ (cfg ok : Bool) (oid now : String) (db : Db) (o : Order),
        getOrderById db oid = some o → o.status = TRANSFERRED →
        approveHandler cfg ok oid now db =
          (ApproveResp.ok, updateById db oid (approveOrderRow now)) ∧
        getOrderById (updateById db oid (approveOrderRow now)) oid =
          some { o with status := COMPLETED, updated_at := now } := by
  constructor
  · intro cfg ok oid now db
    rfl
  · intro cfg ok oid now db o hfind hst
    constructor
    · unfold approveHandler
      rw [hfind]
      simp [hst]
    · rw [getOrderById_updateById db oid _ (approveOrderRow_id now), hfind]
      simp [approveOrderRow, hst]

/-- C5 witness: a concrete TRANSFERRED order is completed by the handler
with the release flags both false. -/
theorem approve_best_effort_witness :
    approveHandler false false "ord-1" "t1"
        [{ sampleOrder with status := OrderStatus.TRANSFERRED }] =
      (ApproveResp.ok,
        updateById [{ sampleOrder with status := OrderStatus.TRANSFERRED }]
          "ord-1" (approveOrderRow "t1")) :=
  (approve_best_effort.2 false false "ord-1" "t1"
    [{ sampleOrder with status := OrderStatus.TRANSFERRED }]
    { sampleOrder with status := OrderStatus.TRANSFERRED }
    rfl rfl).1

/-! ### C1 — the transition graph and the writers -/

/-- C1 counterexample: `updateOrderStatus` (used by the proof callback
for PENDING→VERIFIED) carries no status guard in its WHERE clause, so a
transition attempt along the edge COMPLETED→VERIFIED — an edge outside
the defined set — succeeds and changes the persisted row instead of
failing and leaving it unchanged. -/
theorem update_order_status_unguarded :
    (updateOrderStatusRow VERIFIED {} "t1"
        { sampleOrder with status := COMPLETED }).status = VERIFIED ∧
    allowedEdge COMPLETED VERIFIED = false ∧
    updateOrderStatusRow VERIFIED {} "t1"
        { sampleOrder with status := COMPLETED } ≠
      { sampleOrder with status := COMPLETED } := by
  refine ⟨rfl, rfl, ?_⟩
  intro h
  exact absurd (congrArg Order.status h) (by decide)

/-- C1 (amended): each of the six guarded writers — `listOrder`,
`escrowOrder`, `transferOrder`, `completeTransfer`, `approveOrder`,
`disputeOrder` — is a compare-and-swap for a single edge of the defined
set: from the edge's source status the write succeeds and moves the row
to the target, and from every other status the row is left exactly
unchanged (the HTTP layer surfaces that silent failure as a 409
CONFLICT). -/
theorem guarded_writers_cas :
    ∀ (ppm mm : ℚ) (a d s t cc td now : String) (o : Order),
      casOk (listOrderRow ppm mm now) VERIFIED LISTED o ∧
      casOk (escrowOrderRow a d s t now) LISTED ESCROWED o ∧
      casOk (transferOrderRow now) ESCROWED TRANSFERRING o ∧
      casOk (completeTransferRow cc td now) TRANSFERRING TRANSFERRED o ∧
      casOk (approveOrderRow now) TRANSFERRED COMPLETED o ∧
      casOk (disputeOrderRow now) TRANSFERRED DISPUTED o := by
  intro ppm mm a d s t cc td now o
  unfold casOk listOrderRow escrowOrderRow transferOrderRow
    completeTransferRow approveOrderRow disputeOrderRow
  refine ⟨⟨?_, ?_⟩, ⟨?_, ?_⟩, ⟨?_, ?_⟩, ⟨?_, ?_⟩, ⟨?_, ?_⟩, ⟨?_, ?_⟩⟩ <;>
    intro h <;> simp [h, allowedEdge]

/-- C1 witness: on the concrete LISTED `sampleOrder`, the escrow writer
succeeds along its edge and the approve writer (wrong source status) is
the identity. -/
theorem guarded_writers_cas_witness :
    (escrowOrderRow "0xbuyer" "LAX" "NRT" "0xtx1" "t1" sampleOrder).status
        = ESCROWED ∧
    approveOrderRow "t1" sampleOrder = sampleOrder := by
  have h := guarded_writers_cas 0 0 "0xbuyer" "LAX" "NRT" "0xtx1" "cc" "td"
    "t1" sampleOrder
  exact ⟨(h.2.1.1 rfl).1, h.2.2.2.2.1.2 (by decide)⟩

/-! ### Evaluation lemmas for the concrete instances -/

theorem getListings_pair : getListings [orderA, orderB] = [orderA, orderB] := by
  have hfilter : List.filter (fun o => decide (o.status = LISTED))
      [orderA, orderB] = [orderA, orderB] := by
    simp [List.filter, orderA, orderB, sampleOrder]
  unfold getListings
  rw [hfilter, List.mergeSort]
  simp only [List.splitInTwo, List.splitAt, List.splitAt.go]
  simp only [List.mergeSort_singleton, List.merge]
  simp [orderA, orderB, sampleOrder, ppmKey]

theorem wt_orderA : withinTolerance 75 orderA = true := by
  simp [withinTolerance, orderA, sampleOrder]
  norm_num

theorem wt_orderB : withinTolerance 75 orderB = true := by
  simp [withinTolerance, orderB, sampleOrder]
  norm_num

/-! ### C2 — replay of deliveries -/

/-- C2 counterexample: two LISTED orders with the same quoted cost
(75 USDC); the deposit event carries the hash of order "a". The first
delivery escrows "a". Replaying the *same* event a second time is not a
no-op: the fallback matcher (the hash now matches nothing LISTED)
escrows the unrelated order "b", a second status advancement. -/
theorem deposit_replay_not_noop :
    (getOrderById (handleDepositedEvent sampleEvent "t1" [orderA, orderB])
        "b").map Order.status = some LISTED ∧
    (getOrderById (handleDepositedEvent sampleEvent "t2"
        (handleDepositedEvent sampleEvent "t1" [orderA, orderB]))
        "b").map Order.status = some ESCROWED := by
  have hp1 : primaryMatch [orderA, orderB] sampleEvent.orderIdHash
      = some orderA := by
    simp [primaryMatch, List.find?, keccak256, orderA, sampleOrder,
      sampleEvent]
  have hm1 : matchDeposit [orderA, orderB] sampleEvent = some orderA := by
    unfold matchDeposit
    rw [getListings_pair, hp1]
  have e1 : handleDepositedEvent sampleEvent "t1" [orderA, orderB] =
      [escrowOrderRow "0xbuyer" "LAX" "NRT" "0xtx1" "t1" orderA, orderB] := by
    unfold handleDepositedEvent
    rw [hm1]
    simp [updateById, sampleEvent, orderA, orderB, sampleOrder]
  have hl2 : getListings
      [escrowOrderRow "0xbuyer" "LAX" "NRT" "0xtx1" "t1" orderA, orderB]
      = [orderB] := by
    unfold getListings
    simp [List.filter, escrowOrderRow, orderA, orderB, sampleOrder]
  have hp2 : primaryMatch [orderB] sampleEvent.orderIdHash = none := by
    simp [primaryMatch, List.find?, keccak256, orderB, sampleOrder,
      sampleEvent]
  have hf2 : fallbackMatch [orderB] sampleEvent.depositedUSDC
      = some orderB := by
    unfold fallbackMatch
    have hw := wt_orderB
    simp [List.find?, sampleEvent, hw]
  have hm2 : matchDeposit
      [escrowOrderRow "0xbuyer" "LAX" "NRT" "0xtx1" "t1" orderA, orderB]
      sampleEvent = some orderB := by
    unfold matchDeposit
    rw [hl2, hp2, hf2]
  have e2 : handleDepositedEvent sampleEvent "t2"
      [escrowOrderRow "0xbuyer" "LAX" "NRT" "0xtx1" "t1" orderA, orderB] =
      [escrowOrderRow "0xbuyer" "LAX" "NRT" "0xtx1" "t1" orderA,
       escrowOrderRow "0xbuyer" "LAX" "NRT" "0xtx1" "t2" orderB] := by
    unfold handleDepositedEvent
    rw [hm2]
    simp [updateById, sampleEvent, escrowOrderRow, orderA, orderB,
      sampleOrder]
  constructor
  · rw [e1]
    simp [getOrderById, List.find?, escrowOrderRow, orderA, orderB,
      sampleOrder]
  · rw [e1, e2]
    simp [getOrderById, List.find?, escrowOrderRow, orderA, orderB,
      sampleOrder]

/-- C2 (amended): replaying the transfer callback is a strict no-op on
the persisted table; a deposit-event delivery is a per-row map that never
modifies a row whose status is not LISTED — so a replay leaves the
originally escrowed order unchanged, but (as the counterexample shows) it
can still escrow a different, still-LISTED order whose quoted cost lies
within the 0.01 tolerance of the deposit. -/
theorem delivery_idempotence :
    (∀ (body : TransferCallbackBody) (now1 now2 : String) (db : Db),
      (transferCallback body now2 (transferCallback body now1 db).2).2 =
        (transferCallback body now1 db).2)
    ∧ (∀ (ev : DepositEvent) (now : String) (db : Db),
        handleDepositedEvent ev now db = db.map (depositRowF ev now db))
    ∧ ∀ (ev : DepositEvent) (now : String) (db : Db) (o : Order),
        o.status ≠ LISTED → depositRowF ev now db o = o := by
  refine ⟨?_, ?_, ?_⟩
  · intro body now1 now2 db
    unfold transferCallback
    by_cases hv : body.orderId = "" ∨ body.confirmationCode = "" ∨
        body.ticketDetails = ""
    · simp [hv]
    · cases hfind : getOrderById db body.orderId with
      | none => simp [hv, hfind]
      | some o =>
          by_cases hs : o.status = TRANSFERRING
          · have h2 : getOrderById
                (updateById db body.orderId
                  (completeTransferRow body.confirmationCode
                    body.ticketDetails now1)) body.orderId =
                some (completeTransferRow body.confirmationCode
                  body.ticketDetails now1 o) := by
              rw [getOrderById_updateById _ _ _
                (completeTransferRow_id body.confirmationCode
                  body.ticketDetails now1), hfind]
              rfl
            have h3 : (completeTransferRow body.confirmationCode
                body.ticketDetails now1 o).status = TRANSFERRED := by
              simp [completeTransferRow, hs]
            simp [hv, hfind, hs, h2, h3]
          · simp [hv, hfind, hs]
  · intro ev now db
    unfold handleDepositedEvent depositRowF updateById
    cases hm : matchDeposit db ev with
    | none => simp
    | some m => simp
  · intro ev now db o h
    unfold depositRowF
    cases hm : matchDeposit db ev with
    | none => rfl
    | some m => simp [escrowOrderRow, h]

/-- C2 witness: the transfer-callback replay equation at a concrete
table, and the deposit per-row function fixing a concrete ESCROWED row. -/
theorem delivery_idempotence_witness :
    (transferCallback sampleBody "t2"
        (transferCallback sampleBody "t1"
          [{ sampleOrder with status := OrderStatus.TRANSFERRING }]).2).2 =
      (transferCallback sampleBody "t1"
        [{ sampleOrder with status := OrderStatus.TRANSFERRING }]).2 ∧
    depositRowF ambEvent "t1" []
        { sampleOrder with status := OrderStatus.ESCROWED } =
      { sampleOrder with status := OrderStatus.ESCROWED } :=
  ⟨delivery_idempotence.1 sampleBody "t1" "t2"
      [{ sampleOrder with status := OrderStatus.TRANSFERRING }],
   delivery_idempotence.2.2 ambEvent "t1" []
      { sampleOrder with status := OrderStatus.ESCROWED } (by decide)⟩

/-! ### C3 — ambiguity of the fallback matcher -/

/-- C3 counterexample: a deposit of 75 USDC whose order-id hash matches
no listing, with two distinct LISTED orders both within the 0.01
tolerance. The claim says no order may be transitioned; the code escrows
the first candidate, order "a". -/
theorem ambiguous_fallback_guesses :
    withinTolerance ambEvent.depositedUSDC orderA = true ∧
    withinTolerance ambEvent.depositedUSDC orderB = true ∧
    orderA.id ≠ orderB.id ∧
    orderA.status = LISTED ∧ orderB.status = LISTED ∧
    primaryMatch (getListings [orderA, orderB]) ambEvent.orderIdHash
      = none ∧
    (getOrderById (handleDepositedEvent ambEvent "t1" [orderA, orderB])
        "a").map Order.status = some ESCROWED := by
  have hwa : withinTolerance ambEvent.depositedUSDC orderA = true := by
    have := wt_orderA
    simpa [ambEvent, sampleEvent] using this
  have hwb : withinTolerance ambEvent.depositedUSDC orderB = true := by
    have := wt_orderB
    simpa [ambEvent, sampleEvent] using this
  have hp : primaryMatch [orderA, orderB] ambEvent.orderIdHash = none := by
    simp [primaryMatch, List.find?, keccak256, orderA, orderB, sampleOrder,
      ambEvent, sampleEvent]
  have hf : fallbackMatch [orderA, orderB] ambEvent.depositedUSDC
      = some orderA := by
    unfold fallbackMatch
    simp [List.find?, hwa]
  have hm : matchDeposit [orderA, orderB] ambEvent = some orderA := by
    unfold matchDeposit
    rw [getListings_pair, hp, hf]
  have e1 : handleDepositedEvent ambEvent "t1" [orderA, orderB] =
      [escrowOrderRow "0xbuyer" "LAX" "NRT" "0xtx2" "t1" orderA, orderB] := by
    unfold handleDepositedEvent
    rw [hm]
    simp [updateById, ambEvent, sampleEvent, orderA, orderB, sampleOrder]
  refine ⟨hwa, hwb, by decide, rfl, rfl, ?_, ?_⟩
  · rw [getListings_pair]
    exact hp
  · rw [e1]
    simp [getOrderById, List.find?, escrowOrderRow, orderA, orderB,
      sampleOrder]

/-- C3 (amended): when the primary hash matcher finds nothing and the
fallback finds a first candidate within the 0.01 tolerance, the engine
does not leave the event unresolved: it runs the escrow write on that
first candidate (a LISTED order), regardless of how many other listings
also lie within tolerance. -/
theorem fallback_first_match_escrows :
    ∀ (ev : DepositEvent) (now : String) (db : Db) (o : Order),
      primaryMatch (getListings db) ev.orderIdHash = none →
      fallbackMatch (getListings db) ev.depositedUSDC = some o →
      handleDepositedEvent ev now db =
        updateById db o.id
          (escrowOrderRow ev.buyer ev.departure ev.destination ev.txHash
            now) ∧
      o.status = LISTED ∧
      withinTolerance ev.depositedUSDC o = true ∧
      (escrowOrderRow ev.buyer ev.departure ev.destination ev.txHash now
          o).status = ESCROWED := by
  intro ev now db o hp hf
  have hw : withinTolerance ev.depositedUSDC o = true :=
    List.find?_some hf
  have hmem : o ∈ getListings db :=
    List.mem_of_find?_eq_some hf
  have hlisted : o.status = LISTED := by
    have h1 : o ∈ db.filter (fun o => o.status = LISTED) := by
      unfold getListings at hmem
      exact List.mem_mergeSort.mp hmem
    have h2 := List.of_mem_filter h1
    simpa using h2
  refine ⟨?_, hlisted, hw, by simp [escrowOrderRow, hlisted]⟩
  unfold handleDepositedEvent matchDeposit
  rw [hp, hf]

/-- C3 amended-claim witness: the concrete ambiguous instance — no hash
match, first tolerant candidate `orderA` — run through the theorem. -/
theorem fallback_first_match_escrows_witness :
    handleDepositedEvent ambEvent "t1" [orderA, orderB] =
      updateById [orderA, orderB] orderA.id
        (escrowOrderRow "0xbuyer" "LAX" "NRT" "0xtx2" "t1") ∧
    orderA.status = LISTED := by
  have hp : primaryMatch (getListings [orderA, orderB]) ambEvent.orderIdHash
      = none := by
    rw [getListings_pair]
    simp [primaryMatch, List.find?, keccak256, orderA, orderB, sampleOrder,
      ambEvent, sampleEvent]
  have hf : fallbackMatch (getListings [orderA, orderB])
      ambEvent.depositedUSDC = some orderA := by
    rw [getListings_pair]
    unfold fallbackMatch
    have hwa : withinTolerance ambEvent.depositedUSDC orderA = true := by
      have := wt_orderA
      simpa [ambEvent, sampleEvent] using this
    simp [List.find?, hwa]
  have h := fallback_first_match_escrows ambEvent "t1" [orderA, orderB]
    orderA hp hf
  exact ⟨h.1, h.2.1⟩

/-! ### C4 — the credential "encryption" -/

/-- C4: the ciphertext the seller-intake flow stores is recovered in full
by a party holding no key whatsoever — the keyless base64 decode the mock
execution agent performs — so possession of the matching private key is
not required to compute the plaintext. The second conjunct spells out the
recovered plaintext, the credentials in clear. -/
theorem creds_recoverable_without_key :
    decodeWithoutKey (encryptCreds "alice" "hunter2") =
      some (credsJson "alice" "hunter2") ∧
    credsJson "alice" "hunter2" =
      "\x7b\"username\":\"alice\",\"password\":\"hunter2\"\x7d" := by
  constructor
  · decide
  · rfl

/-! ### C6 — totality and defaults of balance extraction -/

theorem lookupField_obj_null (fields : List (String × JsonVal)) (k : String)
    (h : ∀ kv ∈ fields, (kv : String × JsonVal).1 ≠ k) :
    lookupField (JsonVal.obj fields) k = JsonVal.null := by
  have hnone : fields.find? (fun kv => kv.1 = k) = none := by
    rw [List.find?_eq_none]
    intro kv hkv
    simpa using h kv hkv
  simp [lookupField, hnone]

/-- C6: for every payload and every behaviour of the embedded JSON
parser, balance extraction is a total function (it is defined for every
value of the payload grammar and never throws), it is deterministic, a
falsy payload (`null`, `0`, `""`, `false` — the "empty" cases) yields 0,
and an object payload none of whose keys is recognized yields 0. -/
theorem extract_balance_total :
    ∀ (jparse : String → Option JsonVal),
      (∀ p q : JsonVal, p = q →
        extractBalanceFromProof jparse p = extractBalanceFromProof jparse q)
      ∧ (∀ p : JsonVal, truthy p = false →
          extractBalanceFromProof jparse p = 0)
      ∧ ∀ fields : List (String × JsonVal),
          (∀ kv ∈ fields, (kv : String × JsonVal).1 ∉ recognizedKeys) →
          extractBalanceFromProof jparse (JsonVal.obj fields) = 0 := by
  intro jparse
  refine ⟨fun p q h => by rw [h], ?_, ?_⟩
  · intro p hp
    unfold extractBalanceFromProof
    cases p with
    | null => rfl
    | bool b => cases b with
        | false => rfl
        | true => simp [truthy] at hp
    | num q =>
        show extractGo jparse 1 _ = 0
        simp [extractGo, hp]
    | str s =>
        show extractGo jparse 1 _ = 0
        simp [extractGo, hp]
    | arr l => simp [truthy] at hp
    | obj f => simp [truthy] at hp
  · intro fields h
    have hkey : ∀ k ∈ recognizedKeys,
        lookupField (JsonVal.obj fields) k = JsonVal.null := by
      intro k hk
      refine lookupField_obj_null fields k (fun kv hkv he => ?_)
      exact h kv hkv (he ▸ hk)
    have hb := hkey "balance" (by simp [recognizedKeys])
    have hep := hkey "extractedParameters" (by simp [recognizedKeys])
    have hcd := hkey "claimData" (by simp [recognizedKeys])
    have hpar := hkey "parameters" (by simp [recognizedKeys])
    have hpr := hkey "proofs" (by simp [recognizedKeys])
    have hctx := hkey "context" (by simp [recognizedKeys])
    unfold extractBalanceFromProof
    have hsz : jsonSize (JsonVal.obj fields) = jsonSizeFields fields + 1 := by
      unfold jsonSize
      omega
    rw [hsz]
    simp only [extractGo]
    simp only [hb, hep, hcd, hpar, hpr, hctx]
    simp [truthy, notNullish, lookupField]

/-- C6 witness: a trivial parser, an unrecognized one-field object and
the empty (`null`) payload all run through the theorem. -/
theorem extract_balance_total_witness :
    extractBalanceFromProof (fun _ => none)
      (JsonVal.obj [("foo", JsonVal.str "bar")]) = 0 ∧
    extractBalanceFromProof (fun _ => none) JsonVal.null = 0 :=
  ⟨(extract_balance_total (fun _ => none)).2.2 [("foo", JsonVal.str "bar")]
      (by decide),
   (extract_balance_total (fun _ => none)).2.1 JsonVal.null rfl⟩

/-! ### C7 — signature round-trip of the proof backends -/

/-- C7 counterexample: with the configured secret left at its default
empty string, the reclaim backend signs with the raw empty secret but
verifies against the key `'local'` (`reclaimAppSecret || 'local'`), so a
freshly generated proof fails verification. -/
theorem reclaim_roundtrip_fails_empty_secret :
    verifyProofReclaim ""
      (generateProofReclaim "" sampleParams "id1" "now1") = false := by
  decide

/-- C7 (amended): the mock backend's proofs always verify; the reclaim
backend's proofs verify whenever the configured secret is nonempty (the
keys of `generateProof` and `verifyProof` then coincide). -/
theorem proof_roundtrip :
    (∀ (params : ProofGenerateParams) (newId now nonce : String),
      verifyProofMock (generateProofMock params newId now nonce) = true)
    ∧ ∀ (secret : String), secret ≠ "" →
        ∀ (params : ProofGenerateParams) (newId now : String),
          verifyProofReclaim secret
            (generateProofReclaim secret params newId now) = true := by
  constructor
  · intro params newId now nonce
    simp [verifyProofMock, generateProofMock]
  · intro secret hs params newId now
    simp [verifyProofReclaim, generateProofReclaim, hs]

/-- C7 witness: the round-trip at a concrete nonempty secret and concrete
parameters. -/
theorem proof_roundtrip_witness :
    verifyProofReclaim "secret1"
      (generateProofReclaim "secret1" sampleParams "id1" "now1") = true :=
  proof_roundtrip.2 "secret1" (by decide) sampleParams "id1" "now1"

/-! ### C9 — the duplicate-order guard -/

/-- C9: under valid input and a known provider, order creation answers
DUPLICATE_ORDER exactly when some order for the same provider+username is
PENDING or VERIFIED; orders in any other status never block creation. -/
theorem duplicate_order_iff_active :
    ∀ (providers : List String) (db : Db)
      (provider username password : String) (lp : Option ℚ)
      (newId now : String),
      provider ≠ "" → username ≠ "" → password ≠ "" →
      providers.contains provider = true →
      (isDuplicate (sellHandler providers db provider username password lp
          newId now).1 = true ↔
        ∃ o ∈ db, o.provider_id = provider ∧ o.username = username ∧
          (o.status = PENDING ∨ o.status = VERIFIED)) := by
  intro providers db provider username password lp newId now h1 h2 h3 h4
  unfold sellHandler
  rw [if_neg (by simp [h1, h2, h3]), h4, if_neg (by simp)]
  cases hfind : getActiveOrder db provider username with
  | some o =>
      constructor
      · intro _
        refine ⟨o, List.mem_of_find?_eq_some hfind, ?_⟩
        simpa using List.find?_some hfind
      · intro _
        rfl
  | none =>
      constructor
      · intro hfalse
        simp [isDuplicate] at hfalse
      · rintro ⟨o, hmem, hp, hu, hst⟩
        have hno := List.find?_eq_none.mp hfind o hmem
        simp only [decide_eq_true_eq, not_and, not_or] at hno
        rcases hst with hst | hst
        · exact absurd hst (hno hp hu).1
        · exact absurd hst (hno hp hu).2

/-- C9 witness: a PENDING order for united/alice blocks a second sell
request for the same provider and username. -/
theorem duplicate_order_iff_active_witness :
    isDuplicate (sellHandler ["united"]
      [{ sampleOrder with status := OrderStatus.PENDING }]
      "united" "alice" "pw" none "n1" "t1").1 = true :=
  (duplicate_order_iff_active ["united"]
    [{ sampleOrder with status := OrderStatus.PENDING }]
    "united" "alice" "pw" none "n1" "t1"
    (by decide) (by decide) (by decide) (by decide)).mpr
    ⟨{ sampleOrder with status := OrderStatus.PENDING },
      by simp, rfl, rfl, Or.inl rfl⟩

/-! ### C10 — the fallback compares against the full verified amount -/

/-- C10: the fallback tolerance test compares the deposit against
`price_per_mile × amount` (the order's full verified amount), so a
deposit equal to the quoted cost of a partial purchase
(`miles_amount × price_per_mile`, with the cost difference exceeding the
0.01 tolerance) is never matched to that order by the fallback. -/
theorem fallback_uses_full_amount :
    ∀ (listings : List Order) (o : Order) (milesAmount : ℚ),
      milesAmount < o.amount →
      o.price_per_mile.getD 0 * o.amount - totalCostQuote o milesAmount
        > 1 / 100 →
      fallbackMatch listings (totalCostQuote o milesAmount) ≠ some o := by
  intro listings o m _hlt hdiff hsome
  have hw : withinTolerance (totalCostQuote o m) o = true :=
    List.find?_some hsome
  unfold withinTolerance at hw
  simp only [decide_eq_true_eq] at hw
  have habs := abs_lt.mp hw
  linarith [habs.2]

/-- C10 witness: a 1000-mile partial purchase of the 5000-mile
`sampleOrder` (quote 15 USDC vs. full cost 75 USDC) is not fallback-
matched to it. -/
theorem fallback_uses_full_amount_witness :
    fallbackMatch [sampleOrder] (totalCostQuote sampleOrder 1000) ≠
      some sampleOrder :=
  fallback_uses_full_amount [sampleOrder] sampleOrder 1000
    (by norm_num [sampleOrder])
    (by norm_num [sampleOrder, totalCostQuote])

end Marketplace
